import Mathlib

/-!
Shallow embedding of `src/sfu_simple.rs` (kodai-n11qbb/cam2webrtc):
the `SimpleSfuManager` signaling relay and its room/connection registry.

Modelling conventions:
* `HashMap<String, V>` behind `Arc<RwLock<...>>` is embedded as a total
  function `String → Option V` (`Table V`); `insert`, `remove` and `get`
  are pointwise updates/lookups. The async lock choreography is erased:
  each Rust method becomes a sequential state transformer, which is the
  sequential semantics the spec's functional claims quantify over.
* `Uuid::new_v4()` (an opaque fresh identifier) is modelled as drawing
  from a counter `nextUuid` carried in the state: each draw returns the
  current counter value and increments it, so distinct draws yield
  distinct identifiers.
* `serde_json::Value` payloads are embedded as the record `MessageData`
  of the string fields the code reads (`data.get("sdp").and_then(as_str)`
  becomes `data.bind MessageData.sdp`, and similarly for `candidate`);
  the Leave payload's `connection_id`/`connection_count` become the
  remaining two fields.
* `anyhow::Result` becomes `Except String`, carrying the literal error
  strings of the source. A dispatch error is returned before any table
  is touched, exactly as the `?` early returns in `handle_message`.
-/

/-- Modelled from the spec: the message-type enum of `crate::signaling`
(declared in a file outside `src/`); §3 of the spec fixes its variants as
`Join | Offer | Answer | IceCandidate | Leave`. -/
inductive SignalingMessageType where
  | Join
  | Offer
  | Answer
  | IceCandidate
  | Leave
deriving Repr, DecidableEq

/-- The string-valued payload fields of the `serde_json` `data` object that
`sfu_simple.rs` reads or writes. -/
structure MessageData where
  sdp : Option String := none
  candidate : Option String := none
  leave_connection_id : Option String := none
  connection_count : Option Nat := none
deriving Repr, DecidableEq

/-- Modelled from the spec: the `SignalingMessage` envelope of
`crate::signaling` (declared outside `src/`); fields per §3 of the spec and
the struct literals in `sfu_simple.rs`. `offer_id` holds a generated uuid,
represented as a `Nat` drawn from the freshness counter. -/
structure SignalingMessage where
  message_type : SignalingMessageType
  connection_id : Option String := none
  sender_id : Option String := none
  offer_id : Option Nat := none
  data : Option MessageData := none
  is_sender : Option Bool := none
deriving Repr, DecidableEq

/-- `HashMap<String, V>` as a lookup function. -/
abbrev Table (α : Type) := String → Option α

def Table.empty {α : Type} : Table α := fun _ => none

def Table.insert {α : Type} (t : Table α) (k : String) (v : α) : Table α :=
  fun q => if q = k then some v else t q

def Table.remove {α : Type} (t : Table α) (k : String) : Table α :=
  fun q => if q = k then none else t q

/-- `SimpleSfuRoom` of `sfu_simple.rs`. -/
structure SimpleSfuRoom where
  id : String
  sender_id : Option String
  viewer_ids : List String
  sender_sdp : Option String
  viewer_sdp : Table String

/-- `SimpleSfuConnection` of `sfu_simple.rs`. -/
structure SimpleSfuConnection where
  id : String
  is_sender : Bool
  sdp_offer : Option String
  sdp_answer : Option String
deriving Repr, DecidableEq

/-- The state owned by `SimpleSfuManager`: the two registry tables, plus the
uuid-freshness counter modelling `Uuid::new_v4`. -/
structure SfuState where
  rooms : Table SimpleSfuRoom
  connections : Table SimpleSfuConnection
  nextUuid : Nat

def initState : SfuState :=
  { rooms := Table.empty, connections := Table.empty, nextUuid := 0 }

/-- The outbound `Offer` struct literal of `add_connection` / `handle_sdp`. -/
def mkOfferMsg (recipient sender : String) (offerId : Nat) (sdp : String) :
    SignalingMessage :=
  { message_type := .Offer
    connection_id := some recipient
    sender_id := some sender
    offer_id := some offerId
    data := some { sdp := some sdp }
    is_sender := some false }

/-- The outbound `IceCandidate` struct literal of `handle_ice_candidate`. -/
def mkIceMsg (recipient sender candidate : String) : SignalingMessage :=
  { message_type := .IceCandidate
    connection_id := some recipient
    sender_id := some sender
    offer_id := none
    data := some { candidate := some candidate }
    is_sender := none }

/-- The outbound `Leave` struct literal of `remove_connection`. -/
def mkLeaveMsg (recipient departed : String) (count : Nat) : SignalingMessage :=
  { message_type := .Leave
    connection_id := some recipient
    sender_id := none
    offer_id := none
    data := some { leave_connection_id := some departed,
                   connection_count := some count }
    is_sender := none }

/-- The fresh empty room that `create_room` builds (lines 75–81). -/
def emptyRoom (room_id : String) : SimpleSfuRoom :=
  { id := room_id
    sender_id := none
    viewer_ids := []
    sender_sdp := none
    viewer_sdp := Table.empty }

/-- `SimpleSfuManager::create_room`: unconditionally inserts a fresh empty
room under `room_id` (lines 74–86). Always returns `Ok(())`. -/
def create_room (s : SfuState) (room_id : String) : SfuState :=
  { s with rooms := s.rooms.insert room_id (emptyRoom room_id) }

/-- `SimpleSfuManager::add_connection` (lines 88–128): inserts the connection
record, attaches it to the room when the room exists (sender slot or viewer
append), then — for a viewer — synthesizes one catch-up `Offer` when the room
has both a `sender_id` and a cached `sender_sdp`. -/
def add_connection (s : SfuState) (room_id connection_id : String)
    (is_sender : Bool) : SfuState × List SignalingMessage :=
  let conns := s.connections.insert connection_id
    ({ id := connection_id
       is_sender := is_sender
       sdp_offer := none
       sdp_answer := none })
  let rooms :=
    match s.rooms room_id with
    | some room =>
        if is_sender then
          s.rooms.insert room_id { room with sender_id := some connection_id }
        else
          s.rooms.insert room_id
            { room with viewer_ids := room.viewer_ids ++ [connection_id] }
    | none => s.rooms
  if is_sender then
    ({ s with rooms := rooms, connections := conns }, [])
  else
    match rooms room_id with
    | some room =>
        match room.sender_id, room.sender_sdp with
        | some sid, some ssdp =>
            ({ rooms := rooms, connections := conns,
               nextUuid := s.nextUuid + 1 },
             [mkOfferMsg connection_id sid s.nextUuid ssdp])
        | _, _ => ({ s with rooms := rooms, connections := conns }, [])
    | none => ({ s with rooms := rooms, connections := conns }, [])

/-- The `for viewer_id in &room.viewer_ids` loop of `handle_sdp` (offer
branch): one `Offer` copy per viewer, a fresh uuid drawn per iteration.
Returns the advanced counter together with the messages. -/
def offerFanOut (sender sdp : String) : Nat → List String →
    Nat × List SignalingMessage
  | next, [] => (next, [])
  | next, v :: vs =>
      let rest := offerFanOut sender sdp (next + 1) vs
      (rest.1, mkOfferMsg v sender next sdp :: rest.2)

/-- `SimpleSfuManager::handle_sdp` (lines 130–171). For an offer: stores the
sdp on the submitting connection (when present) and on the room's
`sender_sdp` (when the room exists), then fans one fresh-`offer_id` copy out
to every viewer. For an answer: stores the sdp on the connection only. -/
def handle_sdp (s : SfuState) (room_id connection_id sdp : String)
    (is_offer : Bool) : SfuState × List SignalingMessage :=
  if is_offer then
    let conns :=
      match s.connections connection_id with
      | some c => s.connections.insert connection_id
          ({ c with sdp_offer := some sdp })
      | none => s.connections
    let rooms :=
      match s.rooms room_id with
      | some r => s.rooms.insert room_id { r with sender_sdp := some sdp }
      | none => s.rooms
    match rooms room_id with
    | some room =>
        let fan := offerFanOut connection_id sdp s.nextUuid room.viewer_ids
        ({ rooms := rooms, connections := conns, nextUuid := fan.1 }, fan.2)
    | none => ({ s with rooms := rooms, connections := conns }, [])
  else
    let conns :=
      match s.connections connection_id with
      | some c => s.connections.insert connection_id
          ({ c with sdp_answer := some sdp })
      | none => s.connections
    ({ s with connections := conns }, [])

/-- `SimpleSfuManager::handle_ice_candidate` (lines 173–210): membership-based
routing — from the room's sender, one copy per viewer; otherwise one copy to
the sender when there is one, else nothing. No state is mutated. -/
def handle_ice_candidate (s : SfuState) (room_id connection_id candidate : String) :
    SfuState × List SignalingMessage :=
  match s.rooms room_id with
  | some room =>
      if room.sender_id = some connection_id then
        (s, room.viewer_ids.map fun v => mkIceMsg v connection_id candidate)
      else
        match room.sender_id with
        | some sid => (s, [mkIceMsg sid connection_id candidate])
        | none => (s, [])
  | none => (s, [])

/-- The room update of `remove_connection` lines 217–224: clear the sender
slot (and cached sdp) when the departing connection is the sender, drop it
from `viewer_ids`, drop its `viewer_sdp` entry. -/
def removeFromRoom (room : SimpleSfuRoom) (connection_id : String) :
    SimpleSfuRoom :=
  let room :=
    if room.sender_id = some connection_id then
      { room with sender_id := none, sender_sdp := none }
    else room
  { room with
      viewer_ids := room.viewer_ids.filter (fun i => i != connection_id)
      viewer_sdp := room.viewer_sdp.remove connection_id }

/-- Post-removal participant count of `remove_connection` line 244:
`viewer_ids.len() + if sender_id.is_some() { 1 } else { 0 }`. -/
def participantCount (room : SimpleSfuRoom) : Nat :=
  room.viewer_ids.length + if room.sender_id.isSome then 1 else 0

/-- `SimpleSfuManager::remove_connection` (lines 212–252): delete the
connection record, update the room, then notify every remaining participant
(viewers then sender, excluding the departed id) with a `Leave` carrying the
departed id and the post-removal participant count. -/
def remove_connection (s : SfuState) (room_id connection_id : String) :
    SfuState × List SignalingMessage :=
  let conns := s.connections.remove connection_id
  let rooms :=
    match s.rooms room_id with
    | some room => s.rooms.insert room_id (removeFromRoom room connection_id)
    | none => s.rooms
  let s2 : SfuState := { s with rooms := rooms, connections := conns }
  match rooms room_id with
  | some room =>
      let participants :=
        (room.viewer_ids ++ room.sender_id.toList).filter
          (fun i => i != connection_id)
      (s2, participants.map fun pid =>
        mkLeaveMsg pid connection_id (participantCount room))
  | none => (s2, [])

/-- `SimpleSfuManager::handle_message` (lines 39–72): field extraction (the
`?` early returns) followed by dispatch on the message type; `Leave` is only
matched by the final `_ => Ok(Vec::new())` arm. -/
def handle_message (s : SfuState) (room_id : String) (m : SignalingMessage) :
    Except String (SfuState × List SignalingMessage) :=
  match m.message_type with
  | .Join =>
      match m.connection_id with
      | none => .error "No connection_id"
      | some cid => .ok (add_connection s room_id cid (m.is_sender.getD false))
  | .Offer =>
      match m.connection_id with
      | none => .error "No connection_id"
      | some cid =>
          match m.data.bind MessageData.sdp with
          | none => .error "No SDP in offer"
          | some sdp => .ok (handle_sdp s room_id cid sdp true)
  | .Answer =>
      match m.connection_id with
      | none => .error "No connection_id"
      | some cid =>
          match m.data.bind MessageData.sdp with
          | none => .error "No SDP in answer"
          | some sdp => .ok (handle_sdp s room_id cid sdp false)
  | .IceCandidate =>
      match m.connection_id with
      | none => .error "No connection_id"
      | some cid =>
          match m.data.bind MessageData.candidate with
          | none => .error "No candidate"
          | some cand => .ok (handle_ice_candidate s room_id cid cand)
  | .Leave => .ok (s, [])

/-- One registry-mutating operation, for quantifying over reachable states:
the operations the relay dispatch and the room-lifecycle API perform. -/
inductive SfuOp where
  | createRoom (room_id : String)
  | join (room_id connection_id : String) (is_sender : Bool)
  | offer (room_id connection_id sdp : String)
  | answer (room_id connection_id sdp : String)
  | ice (room_id connection_id candidate : String)
  | leave (room_id connection_id : String)

def applyOp (s : SfuState) : SfuOp → SfuState
  | .createRoom rid => create_room s rid
  | .join rid cid b => (add_connection s rid cid b).1
  | .offer rid cid sdp => (handle_sdp s rid cid sdp true).1
  | .answer rid cid sdp => (handle_sdp s rid cid sdp false).1
  | .ice rid cid c => (handle_ice_candidate s rid cid c).1
  | .leave rid cid => (remove_connection s rid cid).1

def runOps (s : SfuState) (ops : List SfuOp) : SfuState :=
  ops.foldl applyOp s

/-! ## Basic lookup lemmas -/

theorem Table.insert_self {α : Type} (t : Table α) (k : String) (v : α) :
    t.insert k v k = some v := by
  simp [Table.insert]

theorem Table.insert_ne {α : Type} (t : Table α) (k q : String) (v : α)
    (h : q ≠ k) : t.insert k v q = t q := by
  simp [Table.insert, h]

/-- The rooms table after `add_connection`: the room is updated exactly when
it exists, sender slot or viewer append according to the role flag. -/
theorem add_connection_rooms (s : SfuState) (rid cid : String) (b : Bool) :
    (add_connection s rid cid b).1.rooms =
      match s.rooms rid with
      | some room =>
          if b then s.rooms.insert rid { room with sender_id := some cid }
          else s.rooms.insert rid
            { room with viewer_ids := room.viewer_ids ++ [cid] }
      | none => s.rooms := by
  rcases h : s.rooms rid with _ | room
  · cases b <;> simp [add_connection, h, Table.insert]
  · cases b
    · simp only [add_connection, h, Bool.false_eq_true, if_false, Table.insert_self]
      rcases room.sender_id with _ | sid <;> rcases room.sender_sdp with _ | ssdp <;> simp
    · simp [add_connection, h]

/-- The connections table after `add_connection`: the fresh record is
inserted unconditionally. -/
theorem add_connection_connections (s : SfuState) (rid cid : String) (b : Bool) :
    (add_connection s rid cid b).1.connections =
      s.connections.insert cid
        { id := cid, is_sender := b, sdp_offer := none, sdp_answer := none } := by
  rcases h : s.rooms rid with _ | room
  · cases b <;> simp [add_connection, h]
  · cases b
    · simp only [add_connection, h, Bool.false_eq_true, if_false, Table.insert_self]
      rcases room.sender_id with _ | sid <;> rcases room.sender_sdp with _ | ssdp <;> simp
    · simp [add_connection, h]

/-! ## Offer fan-out lemmas -/

theorem offerFanOut_fst (c p : String) (n : Nat) (vs : List String) :
    (offerFanOut c p n vs).1 = n + vs.length := by
  induction vs generalizing n with
  | nil => simp [offerFanOut]
  | cons v vs ih => simp [offerFanOut, ih]; omega

theorem offerFanOut_length (c p : String) (n : Nat) (vs : List String) :
    (offerFanOut c p n vs).2.length = vs.length := by
  induction vs generalizing n with
  | nil => rfl
  | cons v vs ih => simp [offerFanOut, ih]

theorem offerFanOut_addressees (c p : String) (n : Nat) (vs : List String) :
    (offerFanOut c p n vs).2.map SignalingMessage.connection_id = vs.map some := by
  induction vs generalizing n with
  | nil => rfl
  | cons v vs ih => simp [offerFanOut, mkOfferMsg, ih]

theorem offerFanOut_offer_ids (c p : String) (n : Nat) (vs : List String) :
    (offerFanOut c p n vs).2.map SignalingMessage.offer_id =
      (List.range' n vs.length).map some := by
  induction vs generalizing n with
  | nil => rfl
  | cons v vs ih => simp [offerFanOut, mkOfferMsg, List.range'_succ, ih]

theorem offerFanOut_mem (c p : String) (n : Nat) (vs : List String) :
    ∀ m ∈ (offerFanOut c p n vs).2,
      m.message_type = .Offer ∧ m.sender_id = some c ∧
      m.data = some { sdp := some p } := by
  induction vs generalizing n with
  | nil => intro m hm; simp [offerFanOut] at hm
  | cons v vs ih =>
      intro m hm
      simp only [offerFanOut, List.mem_cons] at hm
      rcases hm with rfl | hm
      · exact ⟨rfl, rfl, rfl⟩
      · exact ih (n + 1) m hm

theorem offerFanOut_ids_nodup (c p : String) (n : Nat) (vs : List String) :
    ((offerFanOut c p n vs).2.map SignalingMessage.offer_id).Nodup := by
  rw [offerFanOut_offer_ids]
  exact (List.nodup_range' ..).map (Option.some_injective Nat)

/-! ## C2 — `create_room` called twice -/

/-- Registry after `create_room "r"` followed by a sender `"s1"` joining. -/
def c2St : SfuState :=
  runOps initState [.createRoom "r", .join "r" "s1" true]

/-- The room stored for `"r"` in `c2St`. -/
def c2Room : SimpleSfuRoom :=
  { id := "r"
    sender_id := some "s1"
    viewer_ids := []
    sender_sdp := none
    viewer_sdp := Table.empty }

/-- C2: the claim fails — calling `create_room` a second time for a room that
already has a sender does NOT leave membership unchanged: the stored
`sender_id` goes from `some "s1"` to `none`. -/
theorem C2_counterexample :
    (c2St.rooms "r").map SimpleSfuRoom.sender_id = some (some "s1") ∧
    ((create_room c2St "r").rooms "r").map SimpleSfuRoom.sender_id =
      some none := by
  exact ⟨rfl, rfl⟩

/-- C2 (amended): a second `create_room` for an existing room id succeeds
(infallibly) but REPLACES the room with a fresh empty one — `sender_id`,
`viewer_ids` and `sender_sdp` are reset, so membership is discarded rather
than preserved; other rooms and the connection table are untouched. -/
theorem C2_create_room_replaces (s : SfuState) (rid : String)
    (room : SimpleSfuRoom) (h : s.rooms rid = some room) :
    (create_room s rid).rooms rid = some (emptyRoom rid) ∧
    (∀ r, r ≠ rid → (create_room s rid).rooms r = s.rooms r) ∧
    (create_room s rid).connections = s.connections := by
  refine ⟨Table.insert_self .., fun r hr => Table.insert_ne _ _ _ _ hr, rfl⟩

/-- C2 witness: the amended statement applied to the concrete registry
`c2St`, whose room `"r"` exists. -/
theorem C2_witness :
    (create_room c2St "r").rooms "r" = some (emptyRoom "r") :=
  (C2_create_room_replaces c2St "r" c2Room rfl).1

/-! ## C9 — viewer_ids uniqueness -/

/-- Registry after the same viewer id `"v"` joins room `"r"` twice. -/
def c9St : SfuState :=
  runOps initState [.createRoom "r", .join "r" "v" false, .join "r" "v" false]

/-- C9: the claim fails — a viewer joining the same room twice with the same
connection id yields a duplicated entry: `viewer_ids = ["v", "v"]`, which is
not duplicate-free. -/
theorem C9_counterexample :
    (c9St.rooms "r").map SimpleSfuRoom.viewer_ids = some ["v", "v"] ∧
    ¬ (["v", "v"] : List String).Nodup := by
  exact ⟨rfl, by decide⟩

/-- C9 (amended): a viewer `Join` on an existing room appends the connection
id at the end of `viewer_ids`, preserving the existing entries and their
order; uniqueness is NOT enforced, so re-joining with an id already present
duplicates it. -/
theorem C9_viewer_join_appends (s : SfuState) (rid cid : String)
    (room : SimpleSfuRoom) (h : s.rooms rid = some room) :
    ((add_connection s rid cid false).1.rooms rid).map SimpleSfuRoom.viewer_ids
      = some (room.viewer_ids ++ [cid]) := by
  rw [add_connection_rooms, h]
  simp [Table.insert_self]

/-- C9 witness: appending `"v"` to a room whose `viewer_ids` is already
`["v"]` — the amended statement at a concrete input, producing the
duplicate. -/
theorem C9_witness :
    (((add_connection (runOps initState [.createRoom "r", .join "r" "v" false])
        "r" "v" false).1.rooms "r").map SimpleSfuRoom.viewer_ids)
      = some (["v"] ++ ["v"]) :=
  C9_viewer_join_appends
    (runOps initState [.createRoom "r", .join "r" "v" false]) "r" "v"
    { id := "r", sender_id := none, viewer_ids := ["v"], sender_sdp := none,
      viewer_sdp := Table.empty } rfl

/-! ## C10 — sender slot overwrite on a second sender Join -/

/-- C10: a sender `Join` into a room that already has a sender overwrites
`sender_id` with the new connection id while `sender_sdp` and `viewer_ids`
are untouched, produces no outbound messages, and leaves the previous
sender's connection record in the table. -/
theorem C10_sender_overwrite (s : SfuState) (rid newId oldId : String)
    (room : SimpleSfuRoom) (h : s.rooms rid = some room)
    (hold : room.sender_id = some oldId) (hne : oldId ≠ newId) :
    (add_connection s rid newId true).1.rooms rid =
      some { room with sender_id := some newId } ∧
    (add_connection s rid newId true).1.connections oldId =
      s.connections oldId ∧
    (add_connection s rid newId true).2 = [] := by
  refine ⟨?_, ?_, ?_⟩
  · rw [add_connection_rooms, h]
    simp [Table.insert_self]
  · rw [add_connection_connections]
    exact Table.insert_ne _ _ _ _ hne
  · simp [add_connection, h]

/-- C10 witness: sender `"s2"` joins room `"r"` that already has sender
`"s1"` and cached sdp `"O1"`; the slot is overwritten, `"s1"`'s record
survives, no messages. -/
theorem C10_witness :
    (add_connection (runOps initState
        [.createRoom "r", .join "r" "s1" true, .offer "r" "s1" "O1"])
      "r" "s2" true).1.rooms "r" =
      some { id := "r", sender_id := some "s2", viewer_ids := [],
             sender_sdp := some "O1", viewer_sdp := Table.empty } ∧
    (add_connection (runOps initState
        [.createRoom "r", .join "r" "s1" true, .offer "r" "s1" "O1"])
      "r" "s2" true).1.connections "s1" =
      (runOps initState
        [.createRoom "r", .join "r" "s1" true, .offer "r" "s1" "O1"]).connections "s1" ∧
    (add_connection (runOps initState
        [.createRoom "r", .join "r" "s1" true, .offer "r" "s1" "O1"])
      "r" "s2" true).2 = [] :=
  C10_sender_overwrite
    (runOps initState [.createRoom "r", .join "r" "s1" true, .offer "r" "s1" "O1"])
    "r" "s2" "s1"
    { id := "r", sender_id := some "s1", viewer_ids := [],
      sender_sdp := some "O1", viewer_sdp := Table.empty }
    rfl rfl (by decide)

/-! ## C3 — viewer Join catch-up Offer -/

/-- Registry where room `"r"` has a cached `sender_sdp` but NO sender: a
viewer `"v0"` joined and submitted an `Offer` (which `handle_sdp` caches on
the room unconditionally). -/
def c3St : SfuState :=
  runOps initState [.createRoom "r", .join "r" "v0" false, .offer "r" "v0" "O1"]

/-- An inbound `Join` for viewer `"v1"` (no role flag, defaulting to
viewer). -/
def c3JoinMsg : SignalingMessage :=
  { message_type := .Join, connection_id := some "v1" }

/-- C3: the claim fails — room `"r"` of `c3St` has a cached `sender_sdp`
(`some "O1"`), yet dispatching a viewer `Join` produces ZERO messages (the
code also requires `sender_id` to be `some`, and here it is `none`). -/
theorem C3_counterexample :
    (c3St.rooms "r").map SimpleSfuRoom.sender_sdp = some (some "O1") ∧
    Except.map Prod.snd (handle_message c3St "r" c3JoinMsg) = Except.ok [] := by
  exact ⟨rfl, rfl⟩

/-- C3 (amended): a viewer `Join` into an existing room synthesizes exactly
one catch-up `Offer` — addressed to the new viewer, `sender_id` the room's
sender, a fresh `offer_id`, the cached sdp as payload — when the room has
BOTH a sender and a cached `sender_sdp`; if either is absent the dispatch
returns zero messages. -/
theorem C3_viewer_join_catchup (s : SfuState) (rid cid : String)
    (m : SignalingMessage) (room : SimpleSfuRoom)
    (hm : m.message_type = .Join) (hc : m.connection_id = some cid)
    (hv : m.is_sender.getD false = false)
    (h : s.rooms rid = some room) :
    handle_message s rid m = .ok (add_connection s rid cid false) ∧
    (add_connection s rid cid false).2 =
      (match room.sender_id, room.sender_sdp with
       | some sid, some ssdp => [mkOfferMsg cid sid s.nextUuid ssdp]
       | _, _ => []) := by
  constructor
  · simp only [handle_message, hm, hc, hv]
  · simp only [add_connection, Bool.false_eq_true, if_false, h, Table.insert_self]
    rcases room.sender_id with _ | sid <;> rcases room.sender_sdp with _ | ssdp <;> simp

/-- Registry with sender `"s1"` (sdp `"O1"` cached) for the C3 witness. -/
def c3WSt : SfuState :=
  runOps initState [.createRoom "r", .join "r" "s1" true, .offer "r" "s1" "O1"]

/-- The room stored for `"r"` in `c3WSt`. -/
def c3WRoom : SimpleSfuRoom :=
  { id := "r"
    sender_id := some "s1"
    viewer_ids := []
    sender_sdp := some "O1"
    viewer_sdp := Table.empty }

/-- C3 witness: the amended statement applied to the concrete registry
`c3WSt` (sender and cached sdp both present). -/
theorem C3_witness :
    handle_message c3WSt "r" c3JoinMsg = .ok (add_connection c3WSt "r" "v1" false) ∧
    (add_connection c3WSt "r" "v1" false).2 =
      (match c3WRoom.sender_id, c3WRoom.sender_sdp with
       | some sid, some ssdp => [mkOfferMsg "v1" sid c3WSt.nextUuid ssdp]
       | _, _ => []) :=
  C3_viewer_join_catchup c3WSt "r" "v1" c3JoinMsg c3WRoom rfl rfl rfl rfl

/-! ## C4 — Offer storage and fan-out -/

/-- Evaluation of `handle_sdp` in the offer branch when the room exists. -/
theorem handle_sdp_offer_eq (s : SfuState) (rid cid sdp : String)
    (room : SimpleSfuRoom) (hr : s.rooms rid = some room) :
    handle_sdp s rid cid sdp true =
      ({ rooms := s.rooms.insert rid { room with sender_sdp := some sdp }
         connections :=
           match s.connections cid with
           | some c => s.connections.insert cid ({ c with sdp_offer := some sdp })
           | none => s.connections
         nextUuid := s.nextUuid + room.viewer_ids.length },
       (offerFanOut cid sdp s.nextUuid room.viewer_ids).2) := by
  simp only [handle_sdp, if_true, hr, Table.insert_self]
  rw [offerFanOut_fst]

/-- C4: an `Offer` dispatched for an existing room stores the sdp on the
submitting connection's `sdp_offer` (when its record exists; a missing record
stays missing) and on the room's `sender_sdp`, regardless of the submitter's
role, and fans out exactly `|viewer_ids|` `Offer` messages — one addressed to
each current viewer, pairwise-distinct freshly drawn `offer_id`s, identical
sdp payload, `sender_id` the submitter's id. -/
theorem C4_offer_fanout (s : SfuState) (rid : String) (m : SignalingMessage)
    (cid sdp : String) (room : SimpleSfuRoom)
    (hm : m.message_type = .Offer) (hc : m.connection_id = some cid)
    (hd : m.data.bind MessageData.sdp = some sdp)
    (hr : s.rooms rid = some room) :
    ∃ s' msgs, handle_message s rid m = .ok (s', msgs) ∧
      s'.connections cid =
        (s.connections cid).map (fun c => { c with sdp_offer := some sdp }) ∧
      s'.rooms rid = some { room with sender_sdp := some sdp } ∧
      s'.nextUuid = s.nextUuid + room.viewer_ids.length ∧
      msgs.length = room.viewer_ids.length ∧
      msgs.map SignalingMessage.connection_id = room.viewer_ids.map some ∧
      (∀ mo ∈ msgs, mo.message_type = .Offer ∧ mo.sender_id = some cid ∧
        mo.data = some { sdp := some sdp }) ∧
      (msgs.map SignalingMessage.offer_id).Nodup := by
  have hred : handle_message s rid m = .ok (handle_sdp s rid cid sdp true) := by
    simp only [handle_message, hm, hc, hd]
  rw [handle_sdp_offer_eq s rid cid sdp room hr] at hred
  refine ⟨_, _, hred, ?_, Table.insert_self .., rfl, offerFanOut_length ..,
    offerFanOut_addressees .., offerFanOut_mem _ _ _ _, offerFanOut_ids_nodup ..⟩
  rcases hco : s.connections cid with _ | c
  · simp [hco]
  · simp [hco, Table.insert_self]

/-- Registry with sender `"s1"` and viewers `"v1"`, `"v2"` for witnesses. -/
def c4St : SfuState :=
  runOps initState
    [.createRoom "r", .join "r" "s1" true, .join "r" "v1" false,
     .join "r" "v2" false]

/-- The room stored for `"r"` in `c4St`. -/
def c4Room : SimpleSfuRoom :=
  { id := "r"
    sender_id := some "s1"
    viewer_ids := ["v1", "v2"]
    sender_sdp := none
    viewer_sdp := Table.empty }

/-- An inbound `Offer` from `"s1"` carrying sdp `"O1"`. -/
def c4OfferMsg : SignalingMessage :=
  { message_type := .Offer
    connection_id := some "s1"
    data := some { sdp := some "O1" } }

/-- C4 witness: the fan-out statement applied to the concrete registry
`c4St` with two viewers. -/
theorem C4_witness :
    ∃ s' msgs, handle_message c4St "r" c4OfferMsg = .ok (s', msgs) ∧
      s'.connections "s1" =
        (c4St.connections "s1").map (fun c => { c with sdp_offer := some "O1" }) ∧
      s'.rooms "r" = some { c4Room with sender_sdp := some "O1" } ∧
      s'.nextUuid = c4St.nextUuid + c4Room.viewer_ids.length ∧
      msgs.length = c4Room.viewer_ids.length ∧
      msgs.map SignalingMessage.connection_id = c4Room.viewer_ids.map some ∧
      (∀ mo ∈ msgs, mo.message_type = .Offer ∧ mo.sender_id = some "s1" ∧
        mo.data = some { sdp := some "O1" }) ∧
      (msgs.map SignalingMessage.offer_id).Nodup :=
  C4_offer_fanout c4St "r" c4OfferMsg "s1" "O1" c4Room rfl rfl rfl rfl

/-! ## C5 — IceCandidate routing -/

/-- C5: `IceCandidate` routing is decided by room membership: from the room's
sender, one copy per viewer; from anyone else, one copy to the sender when
the room has one, zero messages when it has none. The state is never
mutated (the returned state is `s` itself). -/
theorem C5_ice_routing (s : SfuState) (rid : String) (m : SignalingMessage)
    (cid cand : String) (room : SimpleSfuRoom)
    (hm : m.message_type = .IceCandidate) (hc : m.connection_id = some cid)
    (hd : m.data.bind MessageData.candidate = some cand)
    (hr : s.rooms rid = some room) :
    (room.sender_id = some cid →
      handle_message s rid m =
        .ok (s, room.viewer_ids.map fun v => mkIceMsg v cid cand)) ∧
    (∀ sid, room.sender_id = some sid → sid ≠ cid →
      handle_message s rid m = .ok (s, [mkIceMsg sid cid cand])) ∧
    (room.sender_id = none →
      handle_message s rid m = .ok (s, [])) := by
  have hred : handle_message s rid m = .ok (handle_ice_candidate s rid cid cand) := by
    simp only [handle_message, hm, hc, hd]
  refine ⟨?_, ?_, ?_⟩
  · intro h
    rw [hred]
    simp [handle_ice_candidate, hr, h]
  · intro sid hsid hne
    rw [hred]
    simp [handle_ice_candidate, hr, hsid, hne]
  · intro h
    rw [hred]
    simp [handle_ice_candidate, hr, h]

/-- An inbound `IceCandidate` from `"s1"` carrying candidate `"c1"`. -/
def c5IceMsg : SignalingMessage :=
  { message_type := .IceCandidate
    connection_id := some "s1"
    data := some { candidate := some "c1" } }

/-- C5 witness: a candidate from the sender `"s1"` of `c4St` is fanned out to
the two viewers. -/
theorem C5_witness :
    handle_message c4St "r" c5IceMsg =
      .ok (c4St, c4Room.viewer_ids.map fun v => mkIceMsg v "s1" "c1") :=
  (C5_ice_routing c4St "r" c5IceMsg "s1" "c1" c4Room rfl rfl rfl rfl).1 rfl

/-! ## C8 — Answer frame effect -/

/-- Evaluation of `handle_sdp` in the answer branch. -/
theorem handle_sdp_answer_eq (s : SfuState) (rid cid sdp : String) :
    handle_sdp s rid cid sdp false =
      ({ s with connections :=
          match s.connections cid with
          | some c => s.connections.insert cid ({ c with sdp_answer := some sdp })
          | none => s.connections }, []) := by
  rfl

/-- C8: an `Answer` stores the sdp on the submitting connection's
`sdp_answer` only (a missing record stays missing, its other fields are
kept), produces zero outbound messages, and modifies neither the rooms
table, the uuid counter, nor any other connection. -/
theorem C8_answer_frame (s : SfuState) (rid : String) (m : SignalingMessage)
    (cid sdp : String)
    (hm : m.message_type = .Answer) (hc : m.connection_id = some cid)
    (hd : m.data.bind MessageData.sdp = some sdp) :
    ∃ s', handle_message s rid m = .ok (s', []) ∧
      s'.rooms = s.rooms ∧
      s'.nextUuid = s.nextUuid ∧
      s'.connections cid =
        (s.connections cid).map (fun c => { c with sdp_answer := some sdp }) ∧
      (∀ q, q ≠ cid → s'.connections q = s.connections q) := by
  have hred : handle_message s rid m = .ok (handle_sdp s rid cid sdp false) := by
    simp only [handle_message, hm, hc, hd]
  rw [handle_sdp_answer_eq] at hred
  refine ⟨_, hred, rfl, rfl, ?_, ?_⟩
  · rcases hco : s.connections cid with _ | c
    · simp [hco]
    · simp [hco, Table.insert_self]
  · intro q hq
    rcases hco : s.connections cid with _ | c
    · simp [hco]
    · simp only [hco]
      exact Table.insert_ne _ _ _ _ hq

/-- An inbound `Answer` from `"v1"` carrying sdp `"A1"`. -/
def c8AnswerMsg : SignalingMessage :=
  { message_type := .Answer
    connection_id := some "v1"
    data := some { sdp := some "A1" } }

/-- C8 witness: the frame statement applied to the concrete registry
`c4St` for viewer `"v1"`. -/
theorem C8_witness :
    ∃ s', handle_message c4St "r" c8AnswerMsg = .ok (s', []) ∧
      s'.rooms = c4St.rooms ∧
      s'.nextUuid = c4St.nextUuid ∧
      s'.connections "v1" =
        (c4St.connections "v1").map (fun c => { c with sdp_answer := some "A1" }) ∧
      (∀ q, q ≠ "v1" → s'.connections q = c4St.connections q) :=
  C8_answer_frame c4St "r" c8AnswerMsg "v1" "A1" rfl rfl rfl

/-! ## C1 — Leave dispatch vs `remove_connection` -/

theorem removeFromRoom_viewer_ids (room : SimpleSfuRoom) (cid : String) :
    (removeFromRoom room cid).viewer_ids =
      room.viewer_ids.filter (fun i => i != cid) := by
  unfold removeFromRoom
  split <;> rfl

theorem removeFromRoom_sender_id (room : SimpleSfuRoom) (cid : String) :
    (removeFromRoom room cid).sender_id =
      if room.sender_id = some cid then none else room.sender_id := by
  unfold removeFromRoom
  split <;> rfl

theorem removeFromRoom_sender_sdp (room : SimpleSfuRoom) (cid : String) :
    (removeFromRoom room cid).sender_sdp =
      if room.sender_id = some cid then none else room.sender_sdp := by
  unfold removeFromRoom
  split <;> rfl

/-- After the room update of `remove_connection`, the departing id no longer
occurs among viewers or sender, so the notification filter keeps every
remaining participant. -/
theorem remove_participants_filter (room : SimpleSfuRoom) (cid : String) :
    ((removeFromRoom room cid).viewer_ids ++
       (removeFromRoom room cid).sender_id.toList).filter (fun i => i != cid) =
      (removeFromRoom room cid).viewer_ids ++
        (removeFromRoom room cid).sender_id.toList := by
  rw [List.filter_append]
  congr 1
  · rw [removeFromRoom_viewer_ids]
    exact List.filter_eq_self.mpr fun a ha => (List.mem_filter.mp ha).2
  · rw [removeFromRoom_sender_id]
    rcases h : room.sender_id with _ | sid
    · simp
    · by_cases hc : sid = cid
      · simp [hc]
      · simp [hc]

/-- Evaluation of `remove_connection` when the room exists. -/
theorem remove_connection_eq (s : SfuState) (rid cid : String)
    (room : SimpleSfuRoom) (hr : s.rooms rid = some room) :
    remove_connection s rid cid =
      ({ s with rooms := s.rooms.insert rid (removeFromRoom room cid)
                connections := s.connections.remove cid },
       ((removeFromRoom room cid).viewer_ids ++
          (removeFromRoom room cid).sender_id.toList).map
         (fun pid => mkLeaveMsg pid cid (participantCount (removeFromRoom room cid)))) := by
  simp only [remove_connection, hr, Table.insert_self, participantCount]
  rw [remove_participants_filter]

/-- Registry with sender `"s1"` and viewer `"v1"` in room `"r"`. -/
def c1St : SfuState :=
  runOps initState [.createRoom "r", .join "r" "s1" true, .join "r" "v1" false]

/-- The room stored for `"r"` in `c1St`. -/
def c1Room : SimpleSfuRoom :=
  { id := "r"
    sender_id := some "s1"
    viewer_ids := ["v1"]
    sender_sdp := none
    viewer_sdp := Table.empty }

/-- An inbound `Leave` for connection `"s1"`. -/
def c1LeaveMsg : SignalingMessage :=
  { message_type := .Leave, connection_id := some "s1" }

/-- C1: the claim fails — a `Leave` message dispatched via `handle_message`
falls into the catch-all arm: the registry is returned UNCHANGED (the
departed connection record is still present) and ZERO messages are produced,
although one participant remains, where the claim demands removal plus one
outbound `Leave` with `connection_count = 1`. -/
theorem C1_counterexample :
    handle_message c1St "r" c1LeaveMsg = .ok (c1St, []) ∧
    (c1St.connections "s1").isSome = true ∧
    (c1St.rooms "r").map participantCount = some 2 := by
  exact ⟨rfl, rfl, rfl⟩

/-- C1 (amended): `handle_message` treats `Leave` as an unrecognized type —
no state change, zero messages; the removal-and-broadcast behaviour lives in
`remove_connection` (invoked by the transport layer on disconnect), which
deletes the connection record, updates the room, and returns one `Leave` per
remaining participant (viewers then sender, the departed id excluded), each
carrying the departed id and `connection_count` equal to the post-removal
participant count. -/
theorem C1_leave_dispatch_and_removal (s : SfuState) (rid cid : String)
    (m : SignalingMessage) (room : SimpleSfuRoom)
    (hm : m.message_type = .Leave) (hr : s.rooms rid = some room) :
    handle_message s rid m = .ok (s, []) ∧
    (remove_connection s rid cid).1.connections cid = none ∧
    (remove_connection s rid cid).1.rooms rid = some (removeFromRoom room cid) ∧
    (remove_connection s rid cid).2 =
      ((removeFromRoom room cid).viewer_ids ++
         (removeFromRoom room cid).sender_id.toList).map
        (fun pid => mkLeaveMsg pid cid (participantCount (removeFromRoom room cid))) ∧
    (remove_connection s rid cid).2.length =
      participantCount (removeFromRoom room cid) := by
  have he := remove_connection_eq s rid cid room hr
  refine ⟨by simp only [handle_message, hm], ?_, ?_, ?_, ?_⟩
  · rw [he]
    simp [Table.remove]
  · rw [he]
    exact Table.insert_self ..
  · rw [he]
  · rw [he]
    simp only [List.length_map, List.length_append, participantCount]
    rcases (removeFromRoom room cid).sender_id with _ | sid <;> simp

/-- C1 witness: the amended statement applied to `c1St`: removing the sender
`"s1"` from room `"r"` leaves viewer `"v1"`, who receives the single `Leave`
notification with `connection_count = 1`. -/
theorem C1_witness :
    handle_message c1St "r" c1LeaveMsg = .ok (c1St, []) ∧
    (remove_connection c1St "r" "s1").1.connections "s1" = none ∧
    (remove_connection c1St "r" "s1").1.rooms "r" =
      some (removeFromRoom c1Room "s1") ∧
    (remove_connection c1St "r" "s1").2 =
      ((removeFromRoom c1Room "s1").viewer_ids ++
         (removeFromRoom c1Room "s1").sender_id.toList).map
        (fun pid => mkLeaveMsg pid "s1" (participantCount (removeFromRoom c1Room "s1"))) ∧
    (remove_connection c1St "r" "s1").2.length =
      participantCount (removeFromRoom c1Room "s1") :=
  C1_leave_dispatch_and_removal c1St "r" "s1" c1LeaveMsg c1Room rfl rfl

/-! ## C6 — MissingField errors -/

/-- C6: dispatch fails exactly when a required field is absent for the
message's type — `connection_id` for `Join`/`Offer`/`Answer`/`IceCandidate`,
`data.sdp` for `Offer`/`Answer`, `data.candidate` for `IceCandidate` — and
never for `Leave`. The error is produced by the extraction step before any
table is read or written: an erroring dispatch returns no successor state,
so the registry the caller holds is untouched. Well-formed messages always
dispatch successfully. -/
theorem C6_missing_field_errors (s : SfuState) (rid : String)
    (m : SignalingMessage) :
    (∃ e, handle_message s rid m = .error e) ↔
      ((m.message_type = .Join ∧ m.connection_id = none) ∨
       (m.message_type = .Offer ∧
         (m.connection_id = none ∨ m.data.bind MessageData.sdp = none)) ∨
       (m.message_type = .Answer ∧
         (m.connection_id = none ∨ m.data.bind MessageData.sdp = none)) ∨
       (m.message_type = .IceCandidate ∧
         (m.connection_id = none ∨ m.data.bind MessageData.candidate = none))) := by
  rcases m with ⟨mt, cid, sid, oid, d, isb⟩
  cases mt <;> rcases cid with _ | c <;>
    rcases hd : d.bind MessageData.sdp with _ | sd <;>
    rcases hcand : d.bind MessageData.candidate with _ | cd <;>
    simp [handle_message, hd, hcand]

/-! ## C7 — sender slot vs role flag; clearing the sender clears the sdp -/

theorem create_room_rooms_lookup (s : SfuState) (r q : String) :
    (create_room s r).rooms q = if q = r then some (emptyRoom r) else s.rooms q :=
  rfl

theorem handle_sdp_offer_rooms (s : SfuState) (rid cid sdp : String) :
    (handle_sdp s rid cid sdp true).1.rooms =
      (match s.rooms rid with
       | some r => s.rooms.insert rid { r with sender_sdp := some sdp }
       | none => s.rooms) := by
  rcases h : s.rooms rid with _ | room <;>
    simp [handle_sdp, h, Table.insert_self]

theorem handle_sdp_answer_rooms (s : SfuState) (rid cid sdp : String) :
    (handle_sdp s rid cid sdp false).1.rooms = s.rooms :=
  rfl

theorem handle_ice_candidate_state (s : SfuState) (rid cid cand : String) :
    (handle_ice_candidate s rid cid cand).1 = s := by
  rcases h : s.rooms rid with _ | room <;>
    simp only [handle_ice_candidate, h]
  · split
    · rfl
    · split <;> rfl

theorem remove_connection_rooms (s : SfuState) (rid cid : String) :
    (remove_connection s rid cid).1.rooms =
      (match s.rooms rid with
       | some room => s.rooms.insert rid (removeFromRoom room cid)
       | none => s.rooms) := by
  rcases h : s.rooms rid with _ | room <;>
    simp [remove_connection, h, Table.insert_self]

theorem add_connection_rooms_lookup (s : SfuState) (r c : String) (b : Bool)
    (q : String) :
    (add_connection s r c b).1.rooms q =
      (if q = r then
        match s.rooms r with
        | some roomr =>
            some (if b then { roomr with sender_id := some c }
                  else { roomr with viewer_ids := roomr.viewer_ids ++ [c] })
        | none => s.rooms q
      else s.rooms q) := by
  rw [add_connection_rooms]
  rcases hsr : s.rooms r with _ | roomr
  · simp [hsr]
  · cases b <;> simp [hsr, Table.insert]

theorem handle_sdp_offer_rooms_lookup (s : SfuState) (rid cid sdp q : String) :
    (handle_sdp s rid cid sdp true).1.rooms q =
      (if q = rid then
        match s.rooms rid with
        | some r => some { r with sender_sdp := some sdp }
        | none => s.rooms q
      else s.rooms q) := by
  rw [handle_sdp_offer_rooms]
  rcases hsr : s.rooms rid with _ | roomr
  · simp [hsr]
  · simp [hsr, Table.insert]

theorem remove_connection_rooms_lookup (s : SfuState) (rid cid q : String) :
    (remove_connection s rid cid).1.rooms q =
      (if q = rid then
        match s.rooms rid with
        | some room => some (removeFromRoom room cid)
        | none => s.rooms q
      else s.rooms q) := by
  rw [remove_connection_rooms]
  rcases hsr : s.rooms rid with _ | roomr
  · simp [hsr]
  · simp [hsr, Table.insert]

/-- A room that an operation did not touch cannot have had its sender slot
cleared: helper for the per-operation case analysis. -/
theorem room_untouched_no_clear (room room' : SimpleSfuRoom)
    (hrr : some room = some room') (hb : room.sender_id.isSome = true)
    (hc : room'.sender_id = none) : room'.sender_sdp = none := by
  injection hrr with hrr
  subst hrr
  rw [hc] at hb
  simp at hb

/-- C7 (amended): across every registry operation, an operation that clears a
room's `sender_id` (from occupied to empty) clears `sender_sdp` in the same
step. (The claim's other half — `sender_id` is `Some` iff an `is_sender`
connection is registered — is refuted by the counterexample.) -/
theorem C7_clearing_sender_clears_sdp (s : SfuState) (op : SfuOp)
    (rid : String) (room room' : SimpleSfuRoom)
    (h : s.rooms rid = some room)
    (h' : (applyOp s op).rooms rid = some room')
    (hb : room.sender_id.isSome = true)
    (hc : room'.sender_id = none) :
    room'.sender_sdp = none := by
  cases op with
  | createRoom r =>
      rw [applyOp, create_room_rooms_lookup] at h'
      by_cases hq : rid = r
      · rw [if_pos hq] at h'
        injection h' with h'
        subst h'
        rfl
      · rw [if_neg hq] at h'
        exact room_untouched_no_clear room room' (h.symm.trans h') hb hc
  | join r c b =>
      simp only [applyOp] at h'
      rw [add_connection_rooms_lookup] at h'
      by_cases hq : rid = r
      · rw [if_pos hq] at h'
        subst hq
        rcases hsr : s.rooms rid with _ | roomr <;> simp only [hsr] at h'
        · cases h'
        · injection h' with h'
          subst h'
          have hrr : roomr = room := by
            rw [hsr] at h
            injection h
          cases b
          · simp only [Bool.false_eq_true, if_false] at hc
            rw [hrr] at hc
            rw [hc] at hb
            simp at hb
          · simp at hc
      · rw [if_neg hq] at h'
        exact room_untouched_no_clear room room' (h.symm.trans h') hb hc
  | offer r c sdp =>
      simp only [applyOp] at h'
      rw [handle_sdp_offer_rooms_lookup] at h'
      by_cases hq : rid = r
      · rw [if_pos hq] at h'
        subst hq
        rcases hsr : s.rooms rid with _ | roomr <;> simp only [hsr] at h'
        · cases h'
        · injection h' with h'
          subst h'
          have hrr : roomr = room := by
            rw [hsr] at h
            injection h
          simp only at hc
          rw [hrr] at hc
          rw [hc] at hb
          simp at hb
      · rw [if_neg hq] at h'
        exact room_untouched_no_clear room room' (h.symm.trans h') hb hc
  | answer r c sdp =>
      rw [applyOp, handle_sdp_answer_rooms] at h'
      exact room_untouched_no_clear room room' (h.symm.trans h') hb hc
  | ice r c cand =>
      rw [applyOp, handle_ice_candidate_state] at h'
      exact room_untouched_no_clear room room' (h.symm.trans h') hb hc
  | leave r c =>
      simp only [applyOp] at h'
      rw [remove_connection_rooms_lookup] at h'
      by_cases hq : rid = r
      · rw [if_pos hq] at h'
        subst hq
        rcases hsr : s.rooms rid with _ | roomr <;> simp only [hsr] at h'
        · cases h'
        · injection h' with h'
          subst h'
          by_cases hsc : roomr.sender_id = some c
          · rw [removeFromRoom_sender_sdp, if_pos hsc]
          · rw [removeFromRoom_sender_id, if_neg hsc] at hc
            have hrr : roomr = room := by
              rw [hsr] at h
              injection h
            rw [hrr] at hc
            rw [hc] at hb
            simp at hb
      · rw [if_neg hq] at h'
        exact room_untouched_no_clear room room' (h.symm.trans h') hb hc

/-- Registry where connection `"s"` joined room `"r"` as sender and then
re-joined as viewer under the same id. -/
def c7St : SfuState :=
  runOps initState [.createRoom "r", .join "r" "s" true, .join "r" "s" false]

/-- C7: the claim's iff fails — in the reachable state `c7St`, room `"r"`
has `sender_id = some "s"` and its only registered participant is `"s"`,
whose (re-inserted) connection record carries `is_sender = false`: the slot
is occupied though no `is_sender = true` connection is registered. -/
theorem C7_counterexample :
    (c7St.rooms "r").map SimpleSfuRoom.sender_id = some (some "s") ∧
    (c7St.rooms "r").map SimpleSfuRoom.viewer_ids = some ["s"] ∧
    (c7St.connections "s").map SimpleSfuConnection.is_sender = some false := by
  exact ⟨rfl, rfl, rfl⟩

/-- C7 witness: the amended statement applied to the removal of sender
`"s1"` from room `"r"` of `c2St`. -/
theorem C7_witness : (removeFromRoom c2Room "s1").sender_sdp = none :=
  C7_clearing_sender_clears_sdp c2St (.leave "r" "s1") "r" c2Room
    (removeFromRoom c2Room "s1") rfl rfl rfl rfl
